import Mathlib

/-
Shallow embedding of babelapi/babel/tower.py (class TowerOfBabel), the
semantic-resolution pass of the stone repository.

The embedding keeps the source's names where Lean allows it:
`_create_alias` is `createAlias`, `_create_type` is `createType`,
`_create_field` is `createField`, `_resolve_type` is `resolveType`,
`_resolve_attrs` is `resolveAttrs`, `_resolve_data_type` is
`resolveDataType`, `_include_babelh` is `includeBabelh`, and `add_to_api`
is `addToApi`.  A Python environment (a dict from names to classes or
instances) is an ordered association list of `EnvEntry`; a Python
exception is the error side of `Except Err`; in-place mutation of the
`Api`/`Namespace` aggregates, which in Python survives a propagating
exception, is made explicit by returning the mutated aggregate next to an
`Option Err`.

Collaborator modules that the repository does not ship under src/
(babelapi/data_type.py, babelapi/api.py, the parser) are modelled from the
spec; every such definition carries a doc comment starting
`Modelled from the spec:`.
-/

set_option linter.unusedVariables false

namespace Tower

/-- Literal values appearing as attribute values, default values and
example values.  Numeric literals are modelled as `Int`; no claim
involves floating-point literals.  `null` is Python's `None`. -/
inductive Lit where
  | str (s : String)
  | int (n : Int)
  | bool (b : Bool)
  | null
  deriving DecidableEq

/-- Example collections attached to a composite type:
label, raw text, field-to-value mapping (tower.py lines 142-143). -/
abbrev Examples := List (String × String × List (String × Lit))

mutual
/-- Modelled from the spec: the resolved type instances of
babelapi/data_type.py, which is not in src.  The constructor list is the
catalog of tower.py lines 48-66; the Struct/Union shape (name, doc,
ordered fields, optional super type, examples) follows spec section 3 and
the construction at tower.py line 141.  The super type is stored exactly
as `env.get(item.extends)` delivers it: an environment entry, which may
be a class or an instance. -/
inductive DataType where
  | binary
  | boolean
  | float32
  | float64
  | int32
  | int64
  | string
  | timestamp
  | uint32
  | uint64
  | empty
  | null
  | list (elem : DataType)
  | struct_ (name : String) (doc : String) (fields : List ApiField)
      (superType : Option EnvEntry) (examples : Examples)
  | union_ (name : String) (doc : String) (fields : List ApiField)
      (superType : Option EnvEntry) (examples : Examples)

/-- An environment entry.  Python stores either a class (checked with
`inspect.isclass`, tower.py lines 110 and 187) or an already
instantiated type; the embedding makes that distinction a variant tag:
`ctor` names an uninstantiated catalog constructor, `inst` holds a type
instance. -/
inductive EnvEntry where
  | ctor (name : String)
  | inst (t : DataType)

/-- Modelled from the spec: the resolved field objects `Field` and
`SymbolField` of babelapi/data_type.py, which is not in src.  The
constructor arguments mirror the call sites at tower.py lines 156 and
167-174, with `set_default` (line 179) folded into the optional `dflt`
component. -/
inductive ApiField where
  | symbolField (name : String) (doc : String)
  | field (name : String) (dataType : DataType) (doc : String)
      (nullable : Bool) (optional : Bool) (deprecated : Bool)
      (dflt : Option Lit)
end

/-- Raw attribute values (`data_type_attrs` entries): a literal, an
unresolved symbol reference (`BabelSymbol`), or - after `_resolve_attrs`
has run - a resolved type. -/
inductive AVal where
  | lit (v : Lit)
  | sym (name : String)
  | type (t : DataType)

/-- The error kinds of spec section 7.  Python raises bare `Exception`s
with distinguishing messages (tower.py lines 105, 107, 115, 126, 132,
160, 178, 193, 207, 267, 273, 289, 304, 319); the embedding names each
raise site by its spec error kind.  `typeError` stands for a Python
`TypeError` escaping a catalog constructor applied to unsuitable
attributes (catalog internals are out of scope, spec section 1);
`recursionLimit` stands for the `RecursionError` of an unboundedly
nested include chain, reached only when the fuel given to
`includeBabelh` is exhausted. -/
inductive Err where
  | alreadyDefined (name : String)
  | undefinedSymbol (name : String)
  | attributesOnInstance (name : String)
  | invalidDefault
  | unknownCompositeKind (kind : String)
  | unknownDeclaration
  | headerNotFound (path : String)
  | missingNamespace
  | typeError
  | recursionLimit
  deriving DecidableEq

/-- An environment: Python's ordered dict from identifiers to entries. -/
abbrev Env := List (String × EnvEntry)

/-- Dict lookup: first binding of the name (names are unique, dict
assignment below keeps them so). -/
def envLookup : Env → String → Option EnvEntry
  | [], _ => none
  | (k, v) :: rest, n => if k = n then some v else envLookup rest n

/-- Python's `name in env`. -/
def envContains (env : Env) (n : String) : Bool :=
  (envLookup env n).isSome

/-- Python's `env[name] = entry`: replace the value in place if the key
exists (preserving insertion order), otherwise append. -/
def envSet : Env → String → EnvEntry → Env
  | [], n, v => [(n, v)]
  | (k, w) :: rest, n, v =>
      if k = n then (k, v) :: rest else (k, w) :: envSet rest n v

/-- First attribute with the given key (the Python code passes
`dict(attrs)` to constructors; duplicate keys do not occur in any claim,
so first-match lookup models it). -/
def attrLookup : List (String × AVal) → String → Option AVal
  | [], _ => none
  | (k, v) :: rest, n => if k = n then some v else attrLookup rest n

/-- Modelled from the spec: application of a catalog constructor class
to keyword attributes (babelapi/data_type.py is not in src; spec
sections 2 item 1 and 4.3).  A list constructor requires an element-type
attribute, keyed `data_type` as witnessed by tower.py line 296; scalar
constructors accept their (range or format) attributes, none of which
any claim inspects; the composite classes Struct and Union require
positional arguments that keyword application does not supply, so
applying them this way is a `TypeError`. -/
def applyCtor (c : String) (attrs : List (String × AVal)) :
    Except Err DataType :=
  if c = "List" then
    match attrLookup attrs "data_type" with
    | some (.type t) => .ok (.list t)
    | _ => .error .typeError
  else if c = "Binary" then .ok .binary
  else if c = "Boolean" then .ok .boolean
  else if c = "Float32" then .ok .float32
  else if c = "Float64" then .ok .float64
  else if c = "Int32" then .ok .int32
  else if c = "Int64" then .ok .int64
  else if c = "String" then .ok .string
  else if c = "Timestamp" then .ok .timestamp
  else if c = "UInt32" then .ok .uint32
  else if c = "UInt64" then .ok .uint64
  else if c = "Empty" then .ok .empty
  else .error .typeError

/-- `_resolve_type` specialised to an empty attribute list, exactly as
`_resolve_attrs` invokes it (tower.py line 209).  Defining the
specialisation first breaks the mutual recursion between
`_resolve_type` and `_resolve_attrs`; `resolveType_nil` below shows the
two agree.  The `none` lookup case is Python's `KeyError` from
`env[data_type_name]` (line 186), reported as the undefined-symbol
failure every caller establishes beforehand. -/
def resolveType0 (env : Env) (dataTypeName : String) : Except Err DataType :=
  match envLookup env dataTypeName with
  | none => .error (.undefinedSymbol dataTypeName)
  | some (.ctor c) => applyCtor c []
  | some (.inst t) => .ok t

/-- `_resolve_attrs` (tower.py lines 199-213): replace every
`BabelSymbol` attribute value by the type it resolves to, failing on an
undefined symbol; pass every other value through. -/
def resolveAttrs (env : Env) :
    List (String × AVal) → Except Err (List (String × AVal))
  | [] => .ok []
  | (k, v) :: rest =>
    match v with
    | .sym n =>
      if envContains env n then
        match resolveType0 env n with
        | .error e => .error e
        | .ok t =>
          match resolveAttrs env rest with
          | .ok tail => .ok ((k, .type t) :: tail)
          | .error e => .error e
      else .error (.undefinedSymbol n)
    | _ =>
      match resolveAttrs env rest with
      | .ok tail => .ok ((k, v) :: tail)
      | .error e => .error e

/-- `_resolve_type` (tower.py lines 182-197): a class is instantiated
with the symbol-resolved attributes; an instance with attributes is an
error; an instance without attributes is returned as is. -/
def resolveType (env : Env) (dataTypeName : String)
    (attrs : List (String × AVal)) : Except Err DataType :=
  match envLookup env dataTypeName with
  | none => .error (.undefinedSymbol dataTypeName)
  | some (.ctor c) =>
    match resolveAttrs env attrs with
    | .error e => .error e
    | .ok ra => applyCtor c ra
  | some (.inst t) =>
    if attrs.isEmpty then .ok t
    else .error (.attributesOnInstance dataTypeName)

theorem resolveType_nil (env : Env) (n : String) :
    resolveType env n [] = resolveType0 env n := by
  unfold resolveType resolveType0
  cases envLookup env n with
  | none => rfl
  | some e => cases e <;> simp [resolveAttrs]

/-- A raw field as the parser delivers it: either a bare symbol
(`BabelSymbol`, a tag-only union variant) or a typed field.  Shapes are
those tower.py consumes at lines 155-179; the parser itself is an
external collaborator (spec section 6). -/
inductive BabelField where
  | symbol (name : String) (doc : String)
  | typed (name : String) (dataTypeName : String)
      (attrs : List (String × AVal)) (doc : String)
      (nullable : Bool) (optional : Bool) (deprecated : Bool)
      (hasDefault : Bool) (dflt : Lit)

/-- A field slot of a raw type definition: a `BabelCatchAllSymbol`
marker, which `_create_type` silently skips (tower.py lines 136-137),
or an ordinary raw field. -/
inductive BabelFieldDecl where
  | catchAll
  | f (bf : BabelField)

/-- `_create_field` (tower.py lines 147-180). -/
def createField (chk : DataType → Lit → Bool) (env : Env)
    (babelField : BabelField) : Except Err ApiField :=
  match babelField with
  | .symbol name doc => .ok (.symbolField name doc)
  | .typed name dataTypeName attrs doc nullable optional deprecated
      hasDefault dflt =>
    if envContains env dataTypeName then
      match resolveType env dataTypeName attrs with
      | .error e => .error e
      | .ok dataType =>
        if hasDefault then
          if nullable && (dflt == Lit.null) then
            .ok (.field name dataType doc nullable optional deprecated
                  (some dflt))
          else if chk dataType dflt then
            .ok (.field name dataType doc nullable optional deprecated
                  (some dflt))
          else .error .invalidDefault
        else
          .ok (.field name dataType doc nullable optional deprecated none)
    else .error (.undefinedSymbol dataTypeName)

/-- The field loop of `_create_type` (tower.py lines 134-140):
catch-all markers are skipped, every other raw field goes through
`_create_field`, in order. -/
def createFields (chk : DataType → Lit → Bool) (env : Env) :
    List BabelFieldDecl → Except Err (List ApiField)
  | [] => .ok []
  | .catchAll :: rest => createFields chk env rest
  | .f bf :: rest =>
    match createField chk env bf with
    | .error e => .error e
    | .ok a =>
      match createFields chk env rest with
      | .error e => .error e
      | .ok tail => .ok (a :: tail)

/-- `_create_alias` (tower.py lines 103-118).  Note that the alias path
applies the constructor to the raw attributes; it does not run
`_resolve_attrs`.  The unreachable `none` arm mirrors the `KeyError`
Python would raise on `env[item.data_type_name]` were the membership
check above it absent. -/
def createAlias (env : Env) (name : String) (dataTypeName : String)
    (attrs : List (String × AVal)) : Except Err Env :=
  if envContains env name then .error (.alreadyDefined name)
  else if envContains env dataTypeName then
    match envLookup env dataTypeName with
    | some (.ctor c) =>
      match applyCtor c attrs with
      | .error e => .error e
      | .ok t => .ok (envSet env name (.inst t))
    | some (.inst t) =>
      if attrs.isEmpty then .ok (envSet env name (.inst t))
      else .error (.attributesOnInstance dataTypeName)
    | none => .error (.undefinedSymbol dataTypeName)
  else .error (.undefinedSymbol dataTypeName)

/-- `_create_type` (tower.py lines 120-145).  `item.extends` is tested
for Python truthiness (`if item.extends:`), so a missing or empty
extends clause means no super type; the union arm never consults the
extends clause.  The returned pair is the constructed type together
with the environment after the final `env[item.name] = api_type`, an
assignment made with no already-defined check. -/
def createType (chk : DataType → Lit → Bool) (env : Env) (name : String)
    (compositeType : String) (ext : Option String)
    (fields : List BabelFieldDecl) (doc : String) (examples : Examples) :
    Except Err (DataType × Env) :=
  if compositeType = "struct" then
    let extName := ext.getD ""
    if extName ≠ "" && !envContains env extName then
      .error (.undefinedSymbol extName)
    else
      let superType := if extName ≠ "" then envLookup env extName else none
      match createFields chk env fields with
      | .error e => .error e
      | .ok flds =>
        let t := DataType.struct_ name doc flds superType examples
        .ok (t, envSet env name (.inst t))
  else if compositeType = "union" then
    match createFields chk env fields with
    | .error e => .error e
    | .ok flds =>
      let t := DataType.union_ name doc flds none examples
      .ok (t, envSet env name (.inst t))
  else .error (.unknownCompositeKind compositeType)

/-- The super-type component of a composite type. -/
def DataType.superType : DataType → Option EnvEntry
  | .struct_ _ _ _ s _ => s
  | .union_ _ _ _ s _ => s
  | _ => none

/-- Whether an environment entry is an already resolved Struct
instance, the spec's phrase "a resolved Struct" (spec section 3
invariants). -/
def EnvEntry.isStructInstance : EnvEntry → Bool
  | .inst (.struct_ _ _ _ _ _) => true
  | _ => false

/-- A parsed top-level declaration, tagged with the kinds tower.py
dispatches on: `BabelNamespace`, `BabelInclude`, `BabelAlias`,
`BabelTypeDef`, `BabelRouteDef` (spec section 6 input boundary). -/
inductive Decl where
  | namespaceDecl (name : String)
  | includeDecl (target : String)
  | aliasDecl (name : String) (dataTypeName : String)
      (attrs : List (String × AVal))
  | typeDef (name : String) (compositeType : String) (ext : Option String)
      (fields : List BabelFieldDecl) (doc : String) (examples : Examples)
  | routeDef (name : String) (path : Option String) (doc : String)
      (requestName : Option String) (responseName : Option String)
      (errorName : Option String) (attrs : List (String × Lit))

/-- The file system visible to include resolution, as a mapping from
paths to already parsed declaration lists: `os.path.exists` is a domain
check and `parser.parse` of the file's text is the mapped value (the
lexer and parser are external collaborators, spec sections 1 and 6). -/
abbrev FS := List (String × List Decl)

def fsLookup : FS → String → Option (List Decl)
  | [], _ => none
  | (k, v) :: rest, n => if k = n then some v else fsLookup rest n

/-- Python truthiness of an optional string (`if item.path:`,
`if not data_type_name:`): `None` and the empty string are falsy. -/
def optTruthy : Option String → Bool
  | none => false
  | some s => !(s == "")

/-- Python's `str.lstrip('/')`: drop every leading slash. -/
def lstripSlash (s : String) : String :=
  String.mk (s.data.dropWhile (fun c => c = '/'))

/-- `os.path.join` for two POSIX path components. -/
def pathJoin (a b : String) : String :=
  if b.data.head? = some '/' then b
  else if a = "" then b
  else if a.data.getLast? = some '/' then a ++ b
  else a ++ "/" ++ b

/-- Python's `str.lower()` (ASCII, as route names are). -/
def strLower (s : String) : String :=
  String.mk (s.data.map Char.toLower)

/-- `os.path.dirname` for POSIX paths: everything up to the last slash,
with trailing slashes stripped unless the result is only slashes. -/
def dirname (p : String) : String :=
  let head := ((p.data.reverse.dropWhile (fun c => c ≠ '/')).reverse)
  if head.isEmpty then ""
  else if head.all (fun c => c = '/') then String.mk head
  else String.mk ((head.reverse.dropWhile (fun c => c = '/')).reverse)

/-- `TowerOfBabel.default_env` (tower.py lines 48-66): the thirteen
catalog classes in list order, then the `Empty` class, then the one
`Null()` instance.  Each document starts from a shallow copy of it
(line 228). -/
def defaultEnv : Env :=
  [("Binary", .ctor "Binary"), ("Boolean", .ctor "Boolean"),
   ("Float32", .ctor "Float32"), ("Float64", .ctor "Float64"),
   ("Int32", .ctor "Int32"), ("Int64", .ctor "Int64"),
   ("List", .ctor "List"), ("String", .ctor "String"),
   ("Struct", .ctor "Struct"), ("Timestamp", .ctor "Timestamp"),
   ("UInt32", .ctor "UInt32"), ("UInt64", .ctor "UInt64"),
   ("Union", .ctor "Union"), ("Empty", .ctor "Empty"),
   ("Null", .inst .null)]

/-- The declaration loop of `_include_babelh` (tower.py lines 281-290):
only includes, aliases and type definitions are accepted; a nested
include descends into `descend` - instantiated below with
`_include_babelh` itself at one less fuel - at
`os.path.dirname(path)` of the current directory argument; anything
else - a route or namespace declaration among them - is an unknown
declaration.  No namespace is in scope here: header types are bound
into `env` only. -/
def includeLoop (chk : DataType → Lit → Bool) (fs : FS)
    (descend : Env → String → String → Except Err Env) :
    Env → String → List Decl → Except Err Env
  | env, _, [] => .ok env
  | env, path, item :: rest =>
    match item with
    | .includeDecl target =>
      match descend env (dirname path) target with
      | .error e => .error e
      | .ok env' => includeLoop chk fs descend env' path rest
    | .aliasDecl n dt attrs =>
      match createAlias env n dt attrs with
      | .error e => .error e
      | .ok env' => includeLoop chk fs descend env' path rest
    | .typeDef n ct ext flds doc exs =>
      match createType chk env n ct ext flds doc exs with
      | .error e => .error e
      | .ok (_, env') => includeLoop chk fs descend env' path rest
    | _ => .error .unknownDeclaration

/-- `_include_babelh` (tower.py lines 270-290): locate the header at
`os.path.join(path, name) + '.babelh'`, fail if it does not exist,
otherwise parse it and process its declarations into the same
environment.  `fuel` bounds the include nesting depth (Python has no
such bound and would hit its recursion limit on a cyclic include);
fuel is consumed only when descending into a found header, so the path
computation and the header-not-found failure are fuel-independent. -/
def includeBabelh (chk : DataType → Lit → Bool) (fs : FS) :
    Nat → Env → String → String → Except Err Env
  | fuel, env, path, name =>
    let babelhPath := pathJoin path name ++ ".babelh"
    match fsLookup fs babelhPath with
    | none => .error (.headerNotFound babelhPath)
    | some desc =>
      match fuel with
      | 0 => .error .recursionLimit
      | fuel' + 1 =>
        includeLoop chk fs (includeBabelh chk fs fuel') env path desc

/-- Modelled from the spec: `ApiRoute` of babelapi/api.py, which is not
in src.  The field order mirrors the construction at tower.py lines
256-264: name, path, doc, request, response and error payloads, free
attributes.  Each payload slot holds what `_resolve_data_type`
delivers: nothing, or an environment entry taken verbatim. -/
structure ApiRoute where
  name : String
  path : String
  doc : String
  request : Option EnvEntry
  response : Option EnvEntry
  error : Option EnvEntry
  attrs : List (String × Lit)

/-- Modelled from the spec: `Namespace` of babelapi/api.py, which is not
in src - a name with its ordered type and route lists (spec section 3). -/
structure Namespace where
  name : String
  dataTypes : List DataType
  routes : List ApiRoute

/-- Modelled from the spec: `Namespace.add_data_type` (babelapi/api.py
not in src) appends in insertion order (spec sections 3 and 6). -/
def Namespace.addDataType (ns : Namespace) (t : DataType) : Namespace :=
  { ns with dataTypes := ns.dataTypes ++ [t] }

/-- Modelled from the spec: `Namespace.add_route` (babelapi/api.py not
in src) appends in insertion order (spec sections 3 and 6). -/
def Namespace.addRoute (ns : Namespace) (r : ApiRoute) : Namespace :=
  { ns with routes := ns.routes ++ [r] }

/-- Modelled from the spec: the `Api` aggregate of babelapi/api.py,
which is not in src - a version string and the namespaces keyed by name
(spec section 3). -/
structure Api where
  version : String
  namespaces : List (String × Namespace)

def nsLookup : List (String × Namespace) → String → Option Namespace
  | [], _ => none
  | (k, v) :: rest, n => if k = n then some v else nsLookup rest n

/-- Modelled from the spec: `Api.ensure_namespace` (babelapi/api.py not
in src) idempotently fetches or creates the namespace of that name
(spec sections 3 and 4.7). -/
def Api.ensureNamespace (api : Api) (n : String) : Namespace :=
  match nsLookup api.namespaces n with
  | some ns => ns
  | none => ⟨n, [], []⟩

/-- Writing a namespace back into the aggregate under its name: the
explicit form of the in-place mutation Python performs on the object
`ensure_namespace` returned, which is registered in the `Api` whether
or not later processing fails. -/
def Api.setNamespace (api : Api) (n : String) (ns : Namespace) : Api :=
  ⟨api.version,
   if (nsLookup api.namespaces n).isSome then
     api.namespaces.map (fun p => if p.1 = n then (n, ns) else p)
   else api.namespaces ++ [(n, ns)]⟩

/-- `_resolve_data_type` (tower.py lines 314-321): a falsy name - absent
or empty - resolves to no type; a truthy name absent from the
environment is an undefined symbol; otherwise `env.get` hands back the
entry verbatim, uninstantiated. -/
def resolveDataType (env : Env) (dataTypeName : Option String) :
    Except Err (Option EnvEntry) :=
  if !optTruthy dataTypeName then .ok none
  else
    let n := dataTypeName.getD ""
    if envContains env n then .ok (envLookup env n)
    else .error (.undefinedSymbol n)

/-- One arm of the dispatch loop of `add_to_api` (tower.py lines
230-268).  On success it returns the namespace, environment and `path`
variable as the arm leaves them; note that the route arm overwrites the
`path` variable - which until then held the document's file path - with
the route's own path.  The catch-all arm (a namespace declaration past
the first position, or any other kind) is the unknown-declaration
failure. -/
def addToApiStep (chk : DataType → Lit → Bool) (fs : FS) (fuel : Nat)
    (ns : Namespace) (env : Env) (path : String) :
    Decl → Except Err (Namespace × Env × String)
  | .includeDecl target =>
    match includeBabelh chk fs fuel env (dirname path) target with
    | .error e => .error e
    | .ok env' => .ok (ns, env', path)
  | .aliasDecl n dt attrs =>
    match createAlias env n dt attrs with
    | .error e => .error e
    | .ok env' => .ok (ns, env', path)
  | .typeDef n ct ext flds doc exs =>
    match createType chk env n ct ext flds doc exs with
    | .error e => .error e
    | .ok (t, env') => .ok (ns.addDataType t, env', path)
  | .routeDef rname rpath rdoc req resp errn rattrs =>
    match resolveDataType env req with
    | .error e => .error e
    | .ok reqT =>
      match resolveDataType env resp with
      | .error e => .error e
      | .ok respT =>
        match resolveDataType env errn with
        | .error e => .error e
        | .ok errT =>
          let path' := if optTruthy rpath then lstripSlash (rpath.getD "")
                       else strLower rname
          .ok (ns.addRoute ⟨rname, path', rdoc, reqT, respT, errT, rattrs⟩,
               env, path')
  | _ => .error .unknownDeclaration

/-- The declaration loop of `add_to_api`.  Registration is immediate
and in place: an error aborts the loop, but the namespace keeps
everything registered by the arms already completed (Python's
exception propagates past mutations already made).  The pair returned
is the namespace as mutation left it together with the error, if any. -/
def addToApiLoop (chk : DataType → Lit → Bool) (fs : FS) (fuel : Nat)
    (ns : Namespace) (env : Env) (path : String) :
    List Decl → Namespace × Option Err
  | [] => (ns, none)
  | item :: rest =>
    match addToApiStep chk fs fuel ns env path item with
    | .error e => (ns, some e)
    | .ok (ns', env', path') => addToApiLoop chk fs fuel ns' env' path' rest

/-- `add_to_api` (tower.py lines 215-268).  A document whose first
declaration is not a namespace declaration aborts the run
(`sys.exit(1)`, modelled as the fatal missing-namespace error; an empty
document, an `IndexError` in Python, is folded into the same arm).
Otherwise the namespace is fetched or created, a fresh copy of the
default environment is made, and the remaining declarations are
processed in order; the namespace is registered in the `Api` in either
case. -/
def addToApi (chk : DataType → Lit → Bool) (fs : FS) (fuel : Nat)
    (api : Api) (path : String) (desc : List Decl) : Api × Option Err :=
  match desc with
  | .namespaceDecl n :: rest =>
    let ns := api.ensureNamespace n
    let env := defaultEnv
    let (ns', e) := addToApiLoop chk fs fuel ns env path rest
    (api.setNamespace n ns', e)
  | _ => (api, some .missingNamespace)

/-- A concrete stand-in for the catalog's value-validity check, used to
instantiate `chk` in closed evaluations (the check's internals are out
of scope, spec section 1). -/
def chkTrue : DataType → Lit → Bool := fun _ _ => true

theorem envLookup_envSet (env : Env) (n : String) (e : EnvEntry) :
    envLookup (envSet env n e) n = some e := by
  induction env with
  | nil => simp [envSet, envLookup]
  | cons p rest ih =>
    obtain ⟨k, w⟩ := p
    by_cases h : k = n
    · simp [envSet, envLookup, h]
    · simp [envSet, envLookup, h, ih]

theorem createType_ok_shape (chk : DataType → Lit → Bool) (env : Env)
    (name ct : String) (ext : Option String) (flds : List BabelFieldDecl)
    (doc : String) (exs : Examples) (t : DataType) (env' : Env)
    (h : createType chk env name ct ext flds doc exs = .ok (t, env')) :
    env' = envSet env name (.inst t) := by
  unfold createType at h
  split at h
  · by_cases hc : (decide (¬ext.getD "" = "")
        && !envContains env (ext.getD "")) = true
    · simp only [hc, if_true] at h
      simp at h
    · simp only [hc, Bool.false_eq_true, if_false] at h
      split at h
      · simp at h
      · simp only [Except.ok.injEq, Prod.mk.injEq] at h
        obtain ⟨ht, he⟩ := h
        subst ht
        exact he.symm
  · split at h
    · split at h
      · simp at h
      · simp only [Except.ok.injEq, Prod.mk.injEq] at h
        obtain ⟨ht, he⟩ := h
        subst ht
        exact he.symm
    · simp at h

theorem createType_struct_super (chk : DataType → Lit → Bool) (env : Env)
    (name e : String) (flds : List BabelFieldDecl) (doc : String)
    (exs : Examples) (t : DataType) (env' : Env)
    (h : createType chk env name "struct" (some e) flds doc exs
      = .ok (t, env')) :
    DataType.superType t = (if e ≠ "" then envLookup env e else none) := by
  unfold createType at h
  rw [if_pos rfl] at h
  by_cases hc : (decide (¬e = "") && !envContains env e) = true
  · simp only [Option.getD_some, hc, if_true] at h
    simp at h
  · simp only [Option.getD_some, hc, Bool.false_eq_true, if_false] at h
    split at h
    · simp at h
    · simp only [Except.ok.injEq, Prod.mk.injEq] at h
      obtain ⟨ht, -⟩ := h
      subst ht
      simp [DataType.superType]

/-- C1: "For every environment and every name already bound in it, any
attempt to bind that name again - an alias declaration reusing the
name, or a type definition whose name collides with an existing binding
(including a catalog name) - fails with AlreadyDefined and leaves the
existing binding unchanged."  Refuted for the type-definition half: a
struct definition named "String" against the default environment
succeeds and replaces the catalog binding. -/
theorem claim1_counterexample :
    createType chkTrue defaultEnv "String" "struct" none [] "" []
      = .ok (DataType.struct_ "String" "" [] none [],
             envSet defaultEnv "String"
               (.inst (DataType.struct_ "String" "" [] none []))) ∧
    envLookup defaultEnv "String" = some (.ctor "String") ∧
    envLookup (envSet defaultEnv "String"
        (.inst (DataType.struct_ "String" "" [] none []))) "String"
      = some (.inst (DataType.struct_ "String" "" [] none [])) ∧
    EnvEntry.inst (DataType.struct_ "String" "" [] none [])
      ≠ EnvEntry.ctor "String" := by
  refine ⟨rfl, rfl, rfl, fun h => EnvEntry.noConfusion h⟩

/-- C1 (amended): only an alias declaration that reuses a bound name
fails with AlreadyDefined (leaving the environment untouched, since
nothing is returned); a type definition performs no such check - when
it succeeds, it binds its name over any existing binding, the new
environment being exactly the old one with the name re-assigned to the
new type. -/
theorem claim1_binding :
    (∀ env name dataTypeName attrs, envContains env name = true →
       createAlias env name dataTypeName attrs
         = .error (.alreadyDefined name))
    ∧ (∀ chk env name compositeType ext flds doc exs t env',
       createType chk env name compositeType ext flds doc exs
         = .ok (t, env') →
       env' = envSet env name (.inst t)
         ∧ envLookup env' name = some (.inst t)) := by
  constructor
  · intro env name dataTypeName attrs h
    simp [createAlias, h]
  · intro chk env name compositeType ext flds doc exs t env' h
    have hs := createType_ok_shape chk env name compositeType ext flds doc exs
      t env' h
    exact ⟨hs, by rw [hs]; exact envLookup_envSet env name _⟩

theorem claim1_witness :
    createAlias defaultEnv "String" "Int32" []
      = .error (.alreadyDefined "String") ∧
    (envSet defaultEnv "String"
        (.inst (DataType.struct_ "String" "" [] none []))
       = envSet defaultEnv "String"
          (.inst (DataType.struct_ "String" "" [] none []))
     ∧ envLookup (envSet defaultEnv "String"
          (.inst (DataType.struct_ "String" "" [] none []))) "String"
       = some (.inst (DataType.struct_ "String" "" [] none []))) :=
  ⟨claim1_binding.1 defaultEnv "String" "Int32" [] rfl,
   claim1_binding.2 chkTrue defaultEnv "String" "struct" none [] "" []
     (DataType.struct_ "String" "" [] none [])
     (envSet defaultEnv "String"
       (.inst (DataType.struct_ "String" "" [] none []))) rfl⟩

theorem addToApiStep_append (chk : DataType → Lit → Bool) (fs : FS)
    (fuel : Nat) (ns : Namespace) (env : Env) (path : String) (item : Decl)
    (ns' : Namespace) (env' : Env) (path' : String)
    (h : addToApiStep chk fs fuel ns env path item = .ok (ns', env', path')) :
    ∃ ts rs, ns'.dataTypes = ns.dataTypes ++ ts
      ∧ ns'.routes = ns.routes ++ rs := by
  cases item with
  | namespaceDecl n => simp [addToApiStep] at h
  | includeDecl target =>
    simp only [addToApiStep] at h
    split at h
    · simp at h
    · simp only [Except.ok.injEq, Prod.mk.injEq] at h
      obtain ⟨h1, -, -⟩ := h
      exact ⟨[], [], by simp [← h1], by simp [← h1]⟩
  | aliasDecl n dt attrs =>
    simp only [addToApiStep] at h
    split at h
    · simp at h
    · simp only [Except.ok.injEq, Prod.mk.injEq] at h
      obtain ⟨h1, -, -⟩ := h
      exact ⟨[], [], by simp [← h1], by simp [← h1]⟩
  | typeDef n ct ext flds doc exs =>
    simp only [addToApiStep] at h
    split at h
    · simp at h
    · rename_i t env0 heq
      simp only [Except.ok.injEq, Prod.mk.injEq] at h
      obtain ⟨h1, -, -⟩ := h
      exact ⟨[t], [], by simp [← h1, Namespace.addDataType],
             by simp [← h1, Namespace.addDataType]⟩
  | routeDef rname rpath rdoc req resp errn rattrs =>
    cases hreq : resolveDataType env req with
    | error e => simp [addToApiStep, hreq] at h
    | ok reqT =>
      cases hresp : resolveDataType env resp with
      | error e => simp [addToApiStep, hreq, hresp] at h
      | ok respT =>
        cases herr : resolveDataType env errn with
        | error e => simp [addToApiStep, hreq, hresp, herr] at h
        | ok errT =>
          simp only [addToApiStep, hreq, hresp, herr, Except.ok.injEq,
            Prod.mk.injEq] at h
          obtain ⟨h1, -, -⟩ := h
          subst h1
          exact ⟨[],
            [⟨rname,
              (if optTruthy rpath then lstripSlash (rpath.getD "")
               else strLower rname), rdoc, reqT, respT, errT, rattrs⟩],
            by simp [Namespace.addRoute], by simp [Namespace.addRoute]⟩

theorem addToApiLoop_append (chk : DataType → Lit → Bool) (fs : FS)
    (fuel : Nat) :
    ∀ (decls : List Decl) (ns : Namespace) (env : Env) (path : String),
      ∃ ts rs,
        ((addToApiLoop chk fs fuel ns env path decls).1).dataTypes
          = ns.dataTypes ++ ts ∧
        ((addToApiLoop chk fs fuel ns env path decls).1).routes
          = ns.routes ++ rs := by
  intro decls
  induction decls with
  | nil =>
    intro ns env path
    exact ⟨[], [], by simp [addToApiLoop], by simp [addToApiLoop]⟩
  | cons item rest ih =>
    intro ns env path
    cases hstep : addToApiStep chk fs fuel ns env path item with
    | error e =>
      refine ⟨[], [], ?_, ?_⟩ <;> simp [addToApiLoop, hstep]
    | ok p =>
      obtain ⟨ns', env', path'⟩ := p
      obtain ⟨ts1, rs1, h1, h2⟩ :=
        addToApiStep_append chk fs fuel ns env path item ns' env' path' hstep
      obtain ⟨ts2, rs2, h3, h4⟩ := ih ns' env' path'
      refine ⟨ts1 ++ ts2, rs1 ++ rs2, ?_, ?_⟩ <;>
        simp [addToApiLoop, hstep, h3, h4, h1, h2]

/-- C2: "For every document whose processing raises any non-fatal error
at any declaration, no type or route of that document is registered on
its Namespace: the Namespace's type and route lists are exactly what
they were before the document was processed."  Refuted: a document
declaring struct T and then an alias to an undefined symbol fails with
UndefinedSymbol, yet T stays registered on the namespace. -/
theorem claim2_counterexample :
    addToApi chkTrue [] 1 ⟨"0.1b1", []⟩ "specs/main.babel"
      [.namespaceDecl "ns", .typeDef "T" "struct" none [] "" [],
       .aliasDecl "A" "Missing" []]
    = (⟨"0.1b1", [("ns", ⟨"ns", [DataType.struct_ "T" "" [] none []], []⟩)]⟩,
       some (.undefinedSymbol "Missing")) ∧
    [DataType.struct_ "T" "" [] none []] ≠ ([] : List DataType) :=
  ⟨rfl, by simp⟩

/-- C2 (amended): when a declaration of the document fails with a
non-fatal error, that declaration and every later one register nothing
on the namespace - the loop stops and returns the namespace as it was
when the failing declaration started; but registrations are append-only
across the loop, so types and routes registered by earlier declarations
of the same document remain on the namespace (registration is immediate
per declaration, with no rollback). -/
theorem claim2_error_abort :
    (∀ chk fs fuel ns env path item rest e,
       addToApiStep chk fs fuel ns env path item = .error e →
       addToApiLoop chk fs fuel ns env path (item :: rest) = (ns, some e))
    ∧ (∀ chk fs fuel ns env path decls, ∃ ts rs,
       ((addToApiLoop chk fs fuel ns env path decls).1).dataTypes
         = ns.dataTypes ++ ts ∧
       ((addToApiLoop chk fs fuel ns env path decls).1).routes
         = ns.routes ++ rs) := by
  constructor
  · intro chk fs fuel ns env path item rest e h
    simp [addToApiLoop, h]
  · intro chk fs fuel ns env path decls
    exact addToApiLoop_append chk fs fuel decls ns env path

theorem claim2_witness :
    addToApiLoop chkTrue [] 1 ⟨"ns", [], []⟩ defaultEnv "d/m.babel"
      [.aliasDecl "A" "Missing" []]
    = (⟨"ns", [], []⟩, some (.undefinedSymbol "Missing")) :=
  claim2_error_abort.1 chkTrue [] 1 ⟨"ns", [], []⟩ defaultEnv "d/m.babel"
    (.aliasDecl "A" "Missing" []) [] (.undefinedSymbol "Missing") rfl

/-- C3: "For every struct type definition with an extends clause,
resolution fails with UndefinedSymbol when the target name is not bound
in the environment at that point, and otherwise the resulting Struct's
super_type is the environment's entry for the target, which is a
resolved Struct."  Refuted for the final clause: extending the catalog
name "String" succeeds, and the recorded super type is the
uninstantiated String constructor, not a resolved Struct instance. -/
theorem claim3_counterexample :
    createType chkTrue defaultEnv "B" "struct" (some "String") [] "" []
      = .ok (DataType.struct_ "B" "" [] (some (.ctor "String")) [],
             envSet defaultEnv "B"
               (.inst (DataType.struct_ "B" "" [] (some (.ctor "String")) []))) ∧
    DataType.superType (DataType.struct_ "B" "" [] (some (.ctor "String")) [])
      = some (.ctor "String") ∧
    EnvEntry.isStructInstance (.ctor "String") = false :=
  ⟨rfl, rfl, rfl⟩

/-- C3 (amended): for every struct type definition with a non-empty
extends clause, resolution fails with UndefinedSymbol when the target
name is not bound in the environment at that point (in particular for a
forward reference), and otherwise the resulting struct's super type is
the environment's entry for the target, whatever kind of entry that is -
the code does not check that it is a resolved Struct. -/
theorem claim3_struct_extends :
    (∀ chk env name e flds doc exs, e ≠ "" → envContains env e = false →
       createType chk env name "struct" (some e) flds doc exs
         = .error (.undefinedSymbol e))
    ∧ (∀ chk env name e flds doc exs t env', e ≠ "" →
       createType chk env name "struct" (some e) flds doc exs
         = .ok (t, env') →
       DataType.superType t = envLookup env e) := by
  constructor
  · intro chk env name e flds doc exs h1 h2
    simp [createType, h1, h2]
  · intro chk env name e flds doc exs t env' h1 h
    rw [createType_struct_super chk env name e flds doc exs t env' h]
    simp [h1]

theorem claim3_witness :
    createType chkTrue defaultEnv "B" "struct" (some "Nope") [] "" []
      = .error (.undefinedSymbol "Nope") ∧
    DataType.superType (DataType.struct_ "B" "" [] (some (.ctor "String")) [])
      = envLookup defaultEnv "String" :=
  ⟨claim3_struct_extends.1 chkTrue defaultEnv "B" "Nope" [] "" []
     (by decide) rfl,
   claim3_struct_extends.2 chkTrue defaultEnv "B" "String" [] "" []
     (DataType.struct_ "B" "" [] (some (.ctor "String")) [])
     (envSet defaultEnv "B"
       (.inst (DataType.struct_ "B" "" [] (some (.ctor "String")) [])))
     (by decide) rfl⟩

/-- C4: for every environment, every name bound in it, and every
attribute list: a constructor entry makes type resolution construct a
new instance by applying the symbol-resolved attributes; an instance
entry with a non-empty attribute list fails with AttributesOnInstance;
an instance entry with an empty attribute list is returned itself,
shared rather than copied. -/
theorem claim4_resolve :
    (∀ env name c attrs, envLookup env name = some (.ctor c) →
       resolveType env name attrs
         = match resolveAttrs env attrs with
           | .error e => .error e
           | .ok ra => applyCtor c ra)
    ∧ (∀ env name t attrs, envLookup env name = some (.inst t) →
       attrs.isEmpty = false →
       resolveType env name attrs = .error (.attributesOnInstance name))
    ∧ (∀ env name t, envLookup env name = some (.inst t) →
       resolveType env name [] = .ok t) := by
  refine ⟨?_, ?_, ?_⟩
  · intro env name c attrs h
    simp [resolveType, h]
  · intro env name t attrs h h2
    simp [resolveType, h, h2]
  · intro env name t h
    simp [resolveType, h, List.isEmpty]

theorem claim4_witness :
    resolveType defaultEnv "List" [("data_type", AVal.sym "String")]
      = (match resolveAttrs defaultEnv [("data_type", AVal.sym "String")] with
         | .error e => .error e
         | .ok ra => applyCtor "List" ra) ∧
    resolveType defaultEnv "Null" [("k", AVal.lit (Lit.int 1))]
      = .error (.attributesOnInstance "Null") ∧
    resolveType defaultEnv "Null" [] = .ok .null :=
  ⟨claim4_resolve.1 defaultEnv "List" "List" [("data_type", AVal.sym "String")]
     rfl,
   claim4_resolve.2.1 defaultEnv "Null" .null [("k", AVal.lit (Lit.int 1))]
     rfl rfl,
   claim4_resolve.2.2 defaultEnv "Null" .null rfl⟩

/-- C5: "For every include declaration, the header is located at the
path obtained by joining the including document's directory with the
target name plus the fixed header suffix - regardless of which
declarations (for example routes with explicit paths) preceded the
include - and resolution fails with HeaderNotFound exactly when no file
exists at that path."  The code diverges from this at the concrete
input below: the document at specs/main.babel declares a route with
explicit path "/x/y" and then an include of "hdr"; the header exists at
specs/hdr.babelh, the join of the document's directory and the target
name plus the ".babelh" suffix, yet processing fails with HeaderNotFound
at "x/hdr.babelh" - the route arm of the dispatch loop overwrote the
loop's `path` variable (which held the document's file path) with the
route path "x/y" (tower.py lines 251-255 against line 232). -/
theorem claim5_failing_run :
    addToApi chkTrue [("specs/hdr.babelh", [])] 5 ⟨"0.1b1", []⟩
        "specs/main.babel"
      [.namespaceDecl "ns",
       .routeDef "DoIt" (some "/x/y") "" none none none [],
       .includeDecl "hdr"]
    = (⟨"0.1b1", [("ns", ⟨"ns", [],
          [⟨"DoIt", "x/y", "", none, none, none, []⟩]⟩)]⟩,
       some (.headerNotFound "x/hdr.babelh")) ∧
    pathJoin (dirname "specs/main.babel") "hdr" ++ ".babelh"
      = "specs/hdr.babelh" ∧
    fsLookup [("specs/hdr.babelh", [])] "specs/hdr.babelh" = some [] :=
  ⟨rfl, rfl, rfl⟩

/-- C6: for every field with a default value: if the field is nullable
and the default is the null marker, the field is built successfully
without invoking the underlying type's value-validity check (the result
is the same for every check function); in every other case the resolved
type's check is invoked on the default and the build fails with
InvalidDefault exactly when the check rejects it; on success the
default is attached to the field. -/
theorem claim6_field_default :
    ∀ env fname dtName attrs fdoc nullable optional deprecated dflt t,
      envContains env dtName = true →
      resolveType env dtName attrs = .ok t →
      ((nullable = true → dflt = Lit.null →
        ∀ chk, createField chk env
            (.typed fname dtName attrs fdoc nullable optional deprecated
              true dflt)
          = .ok (.field fname t fdoc nullable optional deprecated
              (some dflt)))
       ∧ ((nullable && (dflt == Lit.null)) = false →
        ∀ chk, createField chk env
            (.typed fname dtName attrs fdoc nullable optional deprecated
              true dflt)
          = if chk t dflt
            then .ok (.field fname t fdoc nullable optional deprecated
                       (some dflt))
            else .error Err.invalidDefault)) := by
  intro env fname dtName attrs fdoc nullable optional deprecated dflt t h1 h2
  constructor
  · intro hn hd chk
    subst hn hd
    simp [createField, h1, h2]
  · intro hfalse chk
    simp [createField, h1, h2, hfalse]

theorem claim6_witness :
    (createField chkTrue defaultEnv
        (.typed "f" "Int32" [] "" true false false true Lit.null)
      = .ok (.field "f" .int32 "" true false false (some Lit.null))) ∧
    (createField (fun _ _ => false) defaultEnv
        (.typed "g" "Int32" [] "" false false false true (Lit.int 5))
      = if (fun _ _ => false) DataType.int32 (Lit.int 5)
        then .ok (.field "g" .int32 "" false false false
                   (some (Lit.int 5)))
        else .error Err.invalidDefault) :=
  ⟨(claim6_field_default defaultEnv "f" "Int32" [] "" true false false
      Lit.null .int32 rfl rfl).1 rfl rfl chkTrue,
   (claim6_field_default defaultEnv "g" "Int32" [] "" false false false
      (Lit.int 5) .int32 rfl rfl).2 rfl (fun _ _ => false)⟩

/-- C7: for every included header document, a route definition - or a
namespace declaration, or any declaration kind other than include,
alias and type definition - fails with UnknownDeclaration; type
definitions in a header are bound into the including document's
environment (the name maps to the new type in the environment the
header processing threads onward) but are not registered on any
namespace: header processing has no namespace in scope at all, and the
include arm of the document loop passes its namespace through
untouched. -/
theorem claim7_header :
    (∀ chk fs descend env path rname rpath rdoc req resp errn rattrs rest,
       includeLoop chk fs descend env path
           (.routeDef rname rpath rdoc req resp errn rattrs :: rest)
         = .error .unknownDeclaration)
    ∧ (∀ chk fs descend env path n rest,
       includeLoop chk fs descend env path (.namespaceDecl n :: rest)
         = .error .unknownDeclaration)
    ∧ (∀ chk fs descend env path n ct ext flds doc exs rest,
       includeLoop chk fs descend env path
           (.typeDef n ct ext flds doc exs :: rest)
         = match createType chk env n ct ext flds doc exs with
           | .error e => .error e
           | .ok (_, env') => includeLoop chk fs descend env' path rest)
    ∧ (∀ chk env n ct ext flds doc exs t env',
       createType chk env n ct ext flds doc exs = .ok (t, env') →
       envLookup env' n = some (.inst t))
    ∧ (∀ chk fs fuel ns env path target rest,
       addToApiLoop chk fs fuel ns env path (.includeDecl target :: rest)
         = match includeBabelh chk fs fuel env (dirname path) target with
           | .error e => (ns, some e)
           | .ok env' => addToApiLoop chk fs fuel ns env' path rest) := by
  refine ⟨by intros; rfl, by intros; rfl, by intros; rfl, ?_, ?_⟩
  · intro chk env n ct ext flds doc exs t env' h
    rw [createType_ok_shape chk env n ct ext flds doc exs t env' h]
    exact envLookup_envSet env n _
  · intro chk fs fuel ns env path target rest
    cases h : includeBabelh chk fs fuel env (dirname path) target with
    | error e => simp [addToApiLoop, addToApiStep, h]
    | ok env' => simp [addToApiLoop, addToApiStep, h]

theorem claim7_witness :
    envLookup
        (envSet defaultEnv "H" (.inst (DataType.struct_ "H" "" [] none [])))
        "H"
      = some (.inst (DataType.struct_ "H" "" [] none [])) :=
  claim7_header.2.2.2.1 chkTrue defaultEnv "H" "struct" none [] "" []
    (DataType.struct_ "H" "" [] none [])
    (envSet defaultEnv "H" (.inst (DataType.struct_ "H" "" [] none []))) rfl

/-- C8: for every route definition, each of the request, response and
error type names resolves to no type when the name is missing or empty,
and fails with UndefinedSymbol when the name is non-empty and absent
from the environment; the route's path is the explicit path with its
leading separator characters stripped when an explicit path is given,
and otherwise the route's own name lower-cased. -/
theorem claim8_route :
    (∀ env, resolveDataType env none = .ok none)
    ∧ (∀ env, resolveDataType env (some "") = .ok none)
    ∧ (∀ env n, n ≠ "" → envContains env n = false →
       resolveDataType env (some n) = .error (.undefinedSymbol n))
    ∧ (∀ chk fs fuel ns env path rname rpath rdoc req resp errn rattrs rest
         reqT respT errT,
       resolveDataType env req = .ok reqT →
       resolveDataType env resp = .ok respT →
       resolveDataType env errn = .ok errT →
       addToApiLoop chk fs fuel ns env path
           (.routeDef rname rpath rdoc req resp errn rattrs :: rest)
         = addToApiLoop chk fs fuel
             (ns.addRoute ⟨rname,
               (if optTruthy rpath then lstripSlash (rpath.getD "")
                else strLower rname), rdoc, reqT, respT, errT, rattrs⟩)
             env
             (if optTruthy rpath then lstripSlash (rpath.getD "")
              else strLower rname) rest) := by
  refine ⟨fun env => rfl, fun env => rfl, ?_, ?_⟩
  · intro env n h1 h2
    simp [resolveDataType, optTruthy, h1, h2]
  · intro chk fs fuel ns env path rname rpath rdoc req resp errn rattrs rest
      reqT respT errT h1 h2 h3
    simp [addToApiLoop, addToApiStep, h1, h2, h3]

theorem claim8_witness :
    resolveDataType defaultEnv none = .ok none ∧
    resolveDataType defaultEnv (some "") = .ok none ∧
    resolveDataType defaultEnv (some "Nope")
      = .error (.undefinedSymbol "Nope") ∧
    addToApiLoop chkTrue [] 1 ⟨"ns", [], []⟩ defaultEnv "d/m.babel"
        [.routeDef "Ping" none "" (some "String") none (some "Empty") []]
      = addToApiLoop chkTrue [] 1
          ((⟨"ns", [], []⟩ : Namespace).addRoute ⟨"Ping",
            (if optTruthy none then
              lstripSlash ((none : Option String).getD "")
             else strLower "Ping"), "", some (.ctor "String"), none,
            some (.ctor "Empty"), []⟩)
          defaultEnv
          (if optTruthy none then
            lstripSlash ((none : Option String).getD "")
           else strLower "Ping") [] :=
  ⟨claim8_route.1 defaultEnv,
   claim8_route.2.1 defaultEnv,
   claim8_route.2.2.1 defaultEnv "Nope" (by decide) rfl,
   claim8_route.2.2.2 chkTrue [] 1 ⟨"ns", [], []⟩ defaultEnv "d/m.babel"
     "Ping" none "" (some "String") none (some "Empty") [] []
     (some (.ctor "String")) none (some (.ctor "Empty")) rfl rfl rfl⟩

/-- C9: for every type definition whose composite kind is union, any
extends clause is silently ignored: the result is a function of the
fields alone (the equation's right-hand side does not mention the
extends clause, so no environment lookup of its target occurs and an
unbound target raises nothing), and the resulting union's super type
is always absent. -/
theorem claim9_union_extends :
    ∀ chk env name ext flds doc exs,
      createType chk env name "union" ext flds doc exs
        = match createFields chk env flds with
          | .error e => .error e
          | .ok fl =>
            .ok (DataType.union_ name doc fl none exs,
                 envSet env name
                   (.inst (DataType.union_ name doc fl none exs))) := by
  intro chk env name ext flds doc exs
  rfl

/-- C10: for every route definition with a non-empty payload type name
bound in the environment, route payload resolution returns the
environment entry verbatim without instantiating it; in particular a
name bound to a constructor (such as the catalog name String) makes the
route carry the uninstantiated constructor as its payload type. -/
theorem claim10_route_payload :
    (∀ env n e, n ≠ "" → envLookup env n = some e →
       resolveDataType env (some n) = .ok (some e))
    ∧ (∀ chk fs fuel ns env path rname rdoc n c rattrs rest, n ≠ "" →
       envLookup env n = some (.ctor c) →
       addToApiLoop chk fs fuel ns env path
           (.routeDef rname none rdoc (some n) none none rattrs :: rest)
         = addToApiLoop chk fs fuel
             (ns.addRoute ⟨rname, strLower rname, rdoc, some (.ctor c),
               none, none, rattrs⟩)
             env (strLower rname) rest) := by
  constructor
  · intro env n e h1 h2
    simp [resolveDataType, optTruthy, h1, envContains, h2]
  · intro chk fs fuel ns env path rname rdoc n c rattrs rest h1 h2
    have hq : resolveDataType env (some n) = .ok (some (.ctor c)) := by
      simp [resolveDataType, optTruthy, h1, envContains, h2]
    have hn : resolveDataType env none
        = (.ok none : Except Err (Option EnvEntry)) := rfl
    simp [addToApiLoop, addToApiStep, hq, hn, optTruthy]

theorem claim10_witness :
    resolveDataType defaultEnv (some "String")
      = .ok (some (.ctor "String")) ∧
    addToApiLoop chkTrue [] 1 ⟨"ns", [], []⟩ defaultEnv "d/m.babel"
        [.routeDef "Ping2" none "" (some "String") none none []]
      = addToApiLoop chkTrue [] 1
          ((⟨"ns", [], []⟩ : Namespace).addRoute ⟨"Ping2", strLower "Ping2",
            "", some (.ctor "String"), none, none, []⟩)
          defaultEnv (strLower "Ping2") [] :=
  ⟨claim10_route_payload.1 defaultEnv "String" (.ctor "String")
     (by decide) rfl,
   claim10_route_payload.2 chkTrue [] 1 ⟨"ns", [], []⟩ defaultEnv
     "d/m.babel" "Ping2" "" "String" "String" [] [] (by decide) rfl⟩

end Tower
